import Mathlib

/-!
Udyam clone: identifier validators, OTP store and submission handlers

A shallow embedding of `backend/controllers/formController.js`, of the routes of
`backend/routes/formRoutes.js` as mounted by `backend/server.js`, and of the validators
and the submit handler of `frontend/pages/index.tsx`.

Conventions of the embedding:

* a JavaScript string is a Lean `String`; every character the regular
  expressions below can match is ASCII, so counting characters and counting
  UTF-16 code units agree on every accepted string;
* a request body is a JSON object whose fields carry strings (what the form
  sends); a field that is absent reads as `none` (JavaScript `undefined`);
* `Date.now()` is an `Int` of milliseconds, passed in explicitly;
* the random draw behind `crypto.randomInt` is passed in explicitly.
-/

namespace Udyam

/-! ## Regular expressions -/

/-- A character class written as a union of inclusive ranges, as in `[A-Za-z]`. -/
abbrev CharClass := List (Char × Char)

/-- The class `\d`, which without the `u` flag is exactly `[0-9]`. -/
def digitClass : CharClass := [('0', '9')]

/-- The class `[A-Z]`. -/
def upperClass : CharClass := [('A', 'Z')]

/-- The class `[A-Za-z]`. -/
def letterClass : CharClass := [('A', 'Z'), ('a', 'z')]

/-- Membership of a character in a class. -/
def classTest (cls : CharClass) (c : Char) : Bool :=
  cls.any (fun r => decide (r.1 ≤ c) && decide (c ≤ r.2))

/-- One regex item `cls{count}`: exactly `count` characters of the class. -/
structure Atom where
  cls : CharClass
  count : Nat

/-- Consume exactly `n` characters of class `cls`; the rest of the input on success. -/
def matchRep (cls : CharClass) : Nat → List Char → Option (List Char)
  | 0, cs => some cs
  | _ + 1, [] => none
  | n + 1, c :: cs => if classTest cls c then matchRep cls n cs else none

/-- Match a sequence of items from the start of the input (`^`) to its end (`$`). -/
def matchSeq : List Atom → List Char → Bool
  | [], cs => cs.isEmpty
  | a :: rest, cs =>
    match matchRep a.cls a.count cs with
    | some cs' => matchSeq rest cs'
    | none => false

/-- `RegExp.prototype.test` for an anchored pattern `^ item* $`. -/
def regexTest (pattern : List Atom) (s : String) : Bool :=
  matchSeq pattern s.data

/-! ## Validators -/

/-- `validatePan` of formController.js: `/^[A-Z]{5}[0-9]{4}[A-Z]{1}$/.test(pan)`. -/
def validatePan (pan : String) : Bool :=
  regexTest [⟨upperClass, 5⟩, ⟨digitClass, 4⟩, ⟨upperClass, 1⟩] pan

/-- `aadhaarValid` of index.tsx: `/^\d{12}$/.test(v || '')`; `none` is `undefined`. -/
def aadhaarValid (v : Option String) : Bool :=
  regexTest [⟨digitClass, 12⟩] (v.getD "")

/-- `panValid` of index.tsx: `/^[A-Za-z]{5}[0-9]{4}[A-Za-z]{1}$/.test(v || '')`. -/
def panValid (v : Option String) : Bool :=
  regexTest [⟨letterClass, 5⟩, ⟨digitClass, 4⟩, ⟨letterClass, 1⟩] (v.getD "")

/-- Modelled from the spec: `validateAadhaar`, imported by formController.js from
`./validation.js`, a file that is not in the repository. The spec gives the primary-id
check as: true iff `s` is exactly 12 ASCII digits. -/
def validateAadhaar (s : String) : Bool :=
  s.length == 12 && s.data.all Char.isDigit

/-! ## Request bodies and responses -/

/-- A parsed JSON request body: an object whose fields carry strings. -/
abbrev Body := List (String × String)

/-- Property read `body[key]`, as in `const { key } = req.body`; `none` is `undefined`. -/
def field (body : Body) (key : String) : Option String :=
  body.lookup key

/-- The JSON document a handler sends back. -/
inductive ResBody where
  | message (text : String)
  | error (text : String)
  | success (id : Nat)
  | empty
  deriving DecidableEq, Repr

/-- The outcome of `res.status(status).json(body)`. -/
structure Response where
  status : Nat
  body : ResBody
  deriving DecidableEq, Repr

/-! ## The in-memory OTP store -/

/-- One value of `otpStore`: `{ otp, expiry }` as written by `generateOtp`, later mutated by
`verifyOtp`. `none` is JavaScript `null`; `verified = false` is the property being absent. -/
structure OtpEntry where
  otp : Option String
  expiry : Option Int
  verified : Bool
  deriving DecidableEq, Repr

/-- The object `otpStore`, keyed by Aadhaar number. Only keys that pass the Aadhaar check are
ever read or written, so the inherited properties of `Object.prototype` are out of reach. -/
abbrev OtpStore := List (String × OtpEntry)

/-- Property read `otpStore[key]`; `none` is `undefined`. -/
def storeGet (store : OtpStore) (key : String) : Option OtpEntry :=
  store.lookup key

/-- Property removal `delete otpStore[key]`. -/
def storeDelete (store : OtpStore) (key : String) : OtpStore :=
  store.filter (fun p => p.1 != key)

/-- Property write `otpStore[key] = entry`. -/
def storeSet (store : OtpStore) (key : String) (entry : OtpEntry) : OtpStore :=
  (key, entry) :: storeDelete store key

/-- The comparison `Date.now() > storedOtp.expiry`; a `null` expiry converts to the number 0. -/
def jsGreater (now : Int) (expiry : Option Int) : Bool :=
  decide (now > expiry.getD 0)

/-- Node's `crypto.randomInt(min, max)`: an integer `n` with `min ≤ n < max`, the upper bound
excluded. `entropy` is the underlying random draw. -/
def randomInt (min max : Nat) (entropy : Nat) : Nat :=
  min + entropy % (max - min)

/-- The code `generateOtp` draws: `crypto.randomInt(100000, 999999).toString()`. -/
def drawOtp (entropy : Nat) : String :=
  toString (randomInt 100000 999999 entropy)

/-! ## Handlers of formController.js -/

/-- `generateOtp`: issue a challenge for `body.aadhaarNumber` at time `now`. -/
def generateOtp (store : OtpStore) (now : Int) (entropy : Nat) (body : Body) :
    OtpStore × Response :=
  match field body "aadhaarNumber" with
  | none => (store, ⟨400, .error "Aadhaar number is required"⟩)
  | some aadhaarNumber =>
    if aadhaarNumber = "" then
      (store, ⟨400, .error "Aadhaar number is required"⟩)
    else if !validateAadhaar aadhaarNumber then
      (store, ⟨400, .error "Invalid Aadhaar number format"⟩)
    else
      let otp := drawOtp entropy
      let expiry := now + 5 * 60 * 1000
      (storeSet store aadhaarNumber ⟨some otp, some expiry, false⟩,
        ⟨200, .message "OTP sent successfully"⟩)

/-- `verifyOtp`: confirm the code `body.otp` for `body.aadhaarNumber` at time `now`.
A field is falsy (`!x`) when it is `undefined` or the empty string. -/
def verifyOtp (store : OtpStore) (now : Int) (body : Body) : OtpStore × Response :=
  match field body "aadhaarNumber" with
  | none => (store, ⟨400, .error "Invalid Aadhaar number"⟩)
  | some aadhaarNumber =>
    if aadhaarNumber = "" || !validateAadhaar aadhaarNumber then
      (store, ⟨400, .error "Invalid Aadhaar number"⟩)
    else
      match field body "otp" with
      | none => (store, ⟨400, .error "OTP is required"⟩)
      | some otp =>
        if otp = "" then
          (store, ⟨400, .error "OTP is required"⟩)
        else
          match storeGet store aadhaarNumber with
          | none => (store, ⟨400, .error "No OTP generated for this Aadhaar number"⟩)
          | some storedOtp =>
            if jsGreater now storedOtp.expiry then
              (storeDelete store aadhaarNumber, ⟨400, .error "OTP expired"⟩)
            else if storedOtp.otp = some otp then
              (storeSet store aadhaarNumber ⟨none, none, true⟩,
                ⟨200, .message "OTP verified successfully"⟩)
            else
              (store, ⟨400, .error "Invalid OTP"⟩)

/-- The `data` argument of `prisma.submission.create`. -/
structure SubmissionData where
  aadhaar : String
  pan : String
  payload : Body
  deriving DecidableEq, Repr

/-- What `submitForm` did: the `create` calls it issued to storage, and its response. -/
structure SubmitResult where
  requested : List SubmissionData
  response : Response
  deriving DecidableEq, Repr

/-- `submitForm`. `create` is the storage collaborator `prisma.submission.create`: it yields
the new record's id, or throws (`Except.error`, carrying the storage detail). `body = none`
is a request without a parsed body (`req.body || {}`). -/
def submitForm (create : SubmissionData → Except String Nat) (body : Option Body) :
    SubmitResult :=
  let payload := body.getD []
  match field payload "aadhaar" with
  | none => ⟨[], ⟨400, .error "Invalid Aadhaar number"⟩⟩
  | some aadhaar =>
    if aadhaar = "" || !validateAadhaar aadhaar then
      ⟨[], ⟨400, .error "Invalid Aadhaar number"⟩⟩
    else
      match field payload "pan" with
      | none => ⟨[], ⟨400, .error "Invalid PAN number format"⟩⟩
      | some pan =>
        if pan = "" || !validatePan pan then
          ⟨[], ⟨400, .error "Invalid PAN number format"⟩⟩
        else
          let data : SubmissionData := ⟨aadhaar, pan, payload⟩
          match create data with
          | .ok id => ⟨[data], ⟨200, .success id⟩⟩
          | .error _ => ⟨[data], ⟨500, .error "Server error"⟩⟩

/-! ## The backend as a state machine over its router -/

/-- One request reaching the router of formRoutes.js, with what the handler reads from its
environment: the clock, the random draw, the storage collaborator. -/
inductive Request where
  | generateOtp (body : Body) (now : Int) (entropy : Nat)
  | verifyOtp (body : Body) (now : Int)
  | submitForm (body : Option Body) (create : SubmissionData → Except String Nat)

/-- The process state: the module-level `otpStore`, and the records storage has created. -/
structure Backend where
  otpStore : OtpStore
  submissions : List SubmissionData

/-- A freshly started process: `const otpStore = {}` and nothing submitted. -/
def Backend.init : Backend := ⟨[], []⟩

/-- The records a request makes storage create: the `create` calls that did not throw. -/
def createdBy : Request → List SubmissionData
  | .submitForm body create =>
    (submitForm create body).requested.filter (fun d => (create d).toBool)
  | _ => []

/-- Serve one request. -/
def handle (b : Backend) (r : Request) : Backend × Response :=
  match r with
  | .generateOtp body now entropy =>
    let out := generateOtp b.otpStore now entropy body
    (⟨out.1, b.submissions⟩, out.2)
  | .verifyOtp body now =>
    let out := verifyOtp b.otpStore now body
    (⟨out.1, b.submissions⟩, out.2)
  | .submitForm body create =>
    (⟨b.otpStore, b.submissions ++ createdBy r⟩, (submitForm create body).response)

/-- Serve a sequence of requests in order. -/
def serve (b : Backend) (reqs : List Request) : Backend :=
  reqs.foldl (fun s r => (handle s r).1) b

/-- Whether request `r`, served in state `b`, is a `verifyOtp` that marks the challenge of
subject `x` verified: it names `x`, succeeds, and leaves `verified = true` in the store. -/
def marksVerified (x : String) (b : Backend) (r : Request) : Bool :=
  match r with
  | .verifyOtp body _ =>
    decide (field body "aadhaarNumber" = some x) && decide ((handle b r).2.status = 200) &&
      (match storeGet (handle b r).1.otpStore x with
       | some e => e.verified
       | none => false)
  | _ => false

/-- Whether some `verifyOtp` among `reqs`, served from `b`, marks the challenge of `x` verified. -/
def verifiedDuring (x : String) : Backend → List Request → Bool
  | _, [] => false
  | b, r :: rest => marksVerified x b r || verifiedDuring x (handle b r).1 rest

/-- The OTP gate on submissions: every record created by a request of the sequence has a
primary id whose challenge was marked verified by an earlier `verifyOtp` of the sequence. -/
def OtpGated (reqs : List Request) : Prop :=
  ∀ pre r post, reqs = pre ++ r :: post →
    ∀ d ∈ createdBy r, verifiedDuring d.aadhaar Backend.init pre = true

/-- Replay a series of `verifyOtp` requests, each with its clock reading, against the store;
the final store and the responses in order. -/
def verifyEach : OtpStore → List (Int × Body) → OtpStore × List Response
  | store, [] => (store, [])
  | store, (now, body) :: rest =>
    let out := verifyOtp store now body
    let tail := verifyEach out.1 rest
    (tail.1, out.2 :: tail.2)

/-! ## The schema handler and the routes -/

/-- A JSON value, as sent in a response. -/
inductive JsonValue where
  | null
  | bool (b : Bool)
  | num (n : Int)
  | str (s : String)
  | arr (items : List JsonValue)
  | obj (fields : List (String × JsonValue))

/-- `Array.isArray`. -/
def JsonValue.isArray : JsonValue → Bool
  | .arr _ => true
  | _ => false

/-- The JSON document of a response body: `{ message }`, `{ error }`, `{ success: true, id }`
and `{}`. -/
def ResBody.toJson : ResBody → JsonValue
  | .message text => .obj [("message", .str text)]
  | .error text => .obj [("error", .str text)]
  | .success id => .obj [("success", .bool true), ("id", .num id)]
  | .empty => .obj []

/-- `getSchema`: `res.status(200).json({})`, whatever the request. -/
def getSchema (_body : Option Body) : Response :=
  ⟨200, .empty⟩

/-- HTTP methods used by the router and the tests. -/
inductive Method where
  | get
  | post
  deriving DecidableEq, Repr

/-- The handlers exported by formController.js. -/
inductive Endpoint where
  | getSchema
  | submitForm
  | generateOtp
  | verifyOtp
  deriving DecidableEq, Repr

/-- A path segment with its ASCII letters in lower case: route matching ignores case, and
without the `u` flag a non-ASCII character never matches an ASCII letter. -/
def lowerCase (s : String) : String :=
  ⟨s.data.map Char.toLower⟩

/-- The router of formRoutes.js: `router.post('/submit', ...)`, `router.post('/generate-otp',
...)`, `router.post('/verify-otp', ...)`. A path is given by its segments; Express compares
them without regard to case. `none`: no route of the router matches. -/
def routerMatch (method : Method) (path : List String) : Option Endpoint :=
  match method, path.map lowerCase with
  | .post, ["submit"] => some .submitForm
  | .post, ["generate-otp"] => some .generateOtp
  | .post, ["verify-otp"] => some .verifyOtp
  | _, _ => none

/-- The app of server.js: `app.use('/api', routes)` is the only mount. `none`: the request
falls through to the default 404 answer of Express. -/
def appMatch (method : Method) (path : List String) : Option Endpoint :=
  match path with
  | mount :: rest => if lowerCase mount = "api" then routerMatch method rest else none
  | [] => none

/-! ## The form of index.tsx -/

/-- The part of `response.data` that `handleSubmit` reads; `success` is the truthiness of
`data.success`. -/
structure ReplyData where
  message : Option String
  error : Option String
  success : Bool
  deriving DecidableEq, Repr

/-- The outcome of `await axios.post(...)`: resolved with `response.data`, or thrown, in which
case `error` is `error.response?.data?.error`. -/
inductive Reply where
  | resolved (data : ReplyData)
  | rejected (error : Option String)
  deriving DecidableEq, Repr

/-- The expression `v || fallback` on an optional string. -/
def orDefault (v : Option String) (fallback : String) : String :=
  match v with
  | some s => if s = "" then fallback else s
  | none => fallback

/-- One property `key: v` of a JSON request body; an `undefined` value is left out. -/
def jsonField (key : String) (v : Option String) : Body :=
  match v with
  | some s => [(key, s)]
  | none => []

/-- A request sent by the form with `axios.post`. -/
inductive ApiCall where
  | generateOtp (body : Body)
  | verifyOtp (body : Body)
  | submit (body : Body)
  deriving DecidableEq, Repr

/-- The React state of `IndexPage` that `handleSubmit` writes. -/
structure FormView where
  currentStep : Nat
  submitMsg : String
  errors : List (String × String)
  aadhaarVerified : Bool
  showOtpInput : Bool
  loading : Bool
  deriving DecidableEq, Repr

/-- The check of step 2: `!otpValue || !/^\d{6}$/.test(otpValue)` is false. -/
def otpFormatOk (otpValue : Option String) : Bool :=
  match otpValue with
  | none => false
  | some s => !(s = "" || !regexTest [⟨digitClass, 6⟩] s)

/-- `handleSubmit` of index.tsx as a step function: the state before, the entered `values`
and the backend's `reply` to the request (read only when a request is made) give the state
after and the requests sent. In the body of step 3 the spread `...values` comes last and so
overrides; under first-match lookup it is listed first. The module-level map
`aadhaarVerificationStatus`, read only by live field validation, is left out. -/
def handleSubmit (view : FormView) (values : Body) (reply : Reply) : FormView × List ApiCall :=
  let view := { view with submitMsg := "" }
  if view.currentStep = 1 then
    let aadhaarNumber := field values "aadhaarNumber"
    if !aadhaarValid aadhaarNumber then
      ({ view with
          errors := ("aadhaarNumber", "Invalid Aadhaar number.") :: view.errors
          submitMsg := "Please enter a valid 12-digit Aadhaar number." }, [])
    else
      let call := ApiCall.generateOtp (jsonField "aadhaarNumber" aadhaarNumber)
      match reply with
      | .resolved data =>
        if data.message = some "OTP sent successfully" then
          ({ view with
              aadhaarVerified := true
              showOtpInput := true
              submitMsg := "OTP sent successfully. Please enter the OTP received."
              currentStep := 2
              loading := false }, [call])
        else
          ({ view with
              submitMsg := orDefault data.error "Failed to send OTP. Please try again."
              loading := false }, [call])
      | .rejected error =>
        ({ view with
            submitMsg := orDefault error "Server error. Failed to send OTP."
            loading := false }, [call])
  else if view.currentStep = 2 then
    let otpValue := field values "otp"
    if !otpFormatOk otpValue then
      ({ view with
          errors := ("otp", "OTP must be 6 digits long.") :: view.errors
          submitMsg := "Please enter a valid 6-digit OTP." }, [])
    else
      let call := ApiCall.verifyOtp
        (jsonField "aadhaarNumber" (field values "aadhaarNumber") ++ jsonField "otp" otpValue)
      match reply with
      | .resolved data =>
        if data.message = some "OTP verified successfully" then
          ({ view with
              aadhaarVerified := true
              showOtpInput := false
              submitMsg := "OTP verified successfully. Proceeding to PAN validation."
              currentStep := 3
              loading := false }, [call])
        else
          ({ view with
              submitMsg := "OTP verification failed: " ++ orDefault data.error "Invalid OTP"
              loading := false }, [call])
      | .rejected error =>
        ({ view with
            submitMsg := "OTP verification failed: " ++ orDefault error "Server error"
            loading := false }, [call])
  else if view.currentStep = 3 then
    let panNumber := field values "pan"
    if !panValid panNumber then
      ({ view with
          errors := ("pan", "Invalid PAN number format.") :: view.errors
          submitMsg := "Please enter a valid PAN number." }, [])
    else
      let call := ApiCall.submit
        (values ++ jsonField "aadhaar" (field values "aadhaarNumber")
          ++ jsonField "pan" panNumber)
      match reply with
      | .resolved data =>
        if data.success then
          ({ view with
              submitMsg := "Form submitted successfully!"
              currentStep := 4
              loading := false }, [call])
        else
          ({ view with
              submitMsg := "Form submission failed: " ++ orDefault data.message "Unknown error"
              loading := false }, [call])
      | .rejected error =>
        ({ view with
            submitMsg := orDefault error "Server error. Failed to submit form."
            loading := false }, [call])
  else
    (view, [])

/-! ## Lemmas on the regular expressions and validators -/

theorem matchRep_eq (cls : CharClass) (n : Nat) (cs : List Char) :
    matchRep cls n cs =
      if n ≤ cs.length ∧ (cs.take n).all (classTest cls) = true then some (cs.drop n) else none := by
  induction n generalizing cs with
  | zero => simp [matchRep]
  | succ n ih =>
    cases cs with
    | nil => simp [matchRep]
    | cons c cs =>
      simp only [matchRep, ih, List.length_cons, List.take_succ_cons, List.all_cons,
        List.drop_succ_cons, Nat.add_le_add_iff_right, Bool.and_eq_true]
      by_cases hc : classTest cls c = true <;> simp [hc]

theorem classTest_upper (c : Char) : classTest upperClass c = c.isUpper := by
  simp [classTest, upperClass, Char.isUpper, Char.le_def]

theorem classTest_digit (c : Char) : classTest digitClass c = c.isDigit := by
  simp [classTest, digitClass, Char.isDigit, Char.le_def]

theorem classTest_letter (c : Char) : classTest letterClass c = (c.isUpper || c.isLower) := by
  simp [classTest, letterClass, Char.isUpper, Char.isLower, Char.le_def]

theorem matchSeq_single (k : CharClass) (n : Nat) (cs : List Char) :
    matchSeq [⟨k, n⟩] cs = true ↔ cs.length = n ∧ cs.all (classTest k) = true := by
  simp only [matchSeq, matchRep_eq]
  by_cases h : n ≤ cs.length ∧ (cs.take n).all (classTest k) = true
  · rw [if_pos h]
    simp only [List.isEmpty_eq_true, List.drop_eq_nil_iff]
    constructor
    · intro h2
      have hl : cs.length = n := by omega
      refine ⟨hl, ?_⟩
      have := h.2
      rwa [← hl, List.take_length] at this
    · intro h2; omega
  · rw [if_neg h]
    simp only [Bool.false_eq_true, false_iff]
    rintro ⟨hl, ha⟩
    apply h
    subst hl
    simp [ha]

theorem matchSeq_three (k1 k2 k3 : CharClass) (cs : List Char) :
    matchSeq [⟨k1, 5⟩, ⟨k2, 4⟩, ⟨k3, 1⟩] cs = true ↔
      cs.length = 10 ∧ (cs.take 5).all (classTest k1) = true ∧
        ((cs.drop 5).take 4).all (classTest k2) = true ∧
        (cs.drop 9).all (classTest k3) = true := by
  simp only [matchSeq, matchRep_eq]
  by_cases h1 : 5 ≤ cs.length ∧ (cs.take 5).all (classTest k1) = true
  · rw [if_pos h1]
    simp only
    by_cases h2 : 4 ≤ (cs.drop 5).length ∧ ((cs.drop 5).take 4).all (classTest k2) = true
    · rw [if_pos h2]
      simp only [List.drop_drop]
      by_cases h3 : 1 ≤ (cs.drop (4 + 5)).length ∧
          ((cs.drop (4 + 5)).take 1).all (classTest k3) = true
      · rw [if_pos h3]
        simp only [List.isEmpty_eq_true, List.drop_eq_nil_iff, List.length_drop] at *
        constructor
        · intro h4
          have hl : cs.length = 10 := by omega
          refine ⟨hl, h1.2, h2.2, ?_⟩
          have h5 := h3.2
          rwa [List.take_of_length_le (by simp; omega)] at h5
        · intro h4; omega
      · rw [if_neg h3]
        simp only [Bool.false_eq_true, false_iff]
        rintro ⟨hl, _, _, h4⟩
        apply h3
        refine ⟨by simp; omega, ?_⟩
        rwa [List.take_of_length_le (by simp; omega)]
    · rw [if_neg h2]
      simp only [Bool.false_eq_true, false_iff]
      rintro ⟨hl, _, h4, _⟩
      exact h2 ⟨by simp; omega, h4⟩
  · rw [if_neg h1]
    simp only [Bool.false_eq_true, false_iff]
    rintro ⟨hl, h4, _, _⟩
    exact h1 ⟨by omega, h4⟩

theorem validatePan_shape (s : String) :
    validatePan s = true ↔
      s.length = 10 ∧ (s.data.take 5).all Char.isUpper = true ∧
        ((s.data.drop 5).take 4).all Char.isDigit = true ∧
        (s.data.drop 9).all Char.isUpper = true := by
  have hu : classTest upperClass = Char.isUpper := funext classTest_upper
  have hd : classTest digitClass = Char.isDigit := funext classTest_digit
  rw [validatePan, regexTest, matchSeq_three, hu, hd]
  rfl

theorem aadhaarValid_shape (s : String) :
    aadhaarValid (some s) = true ↔ s.length = 12 ∧ s.data.all Char.isDigit = true := by
  have hd : classTest digitClass = Char.isDigit := funext classTest_digit
  rw [aadhaarValid, regexTest, matchSeq_single, hd]
  rfl

theorem aadhaarValid_eq_validateAadhaar (s : String) :
    aadhaarValid (some s) = validateAadhaar s := by
  rw [Bool.eq_iff_iff, aadhaarValid_shape]
  simp only [validateAadhaar, Bool.and_eq_true, beq_iff_eq]

theorem panValid_shape (s : String) :
    panValid (some s) = true ↔
      s.length = 10 ∧ (s.data.take 5).all (fun c => c.isUpper || c.isLower) = true ∧
        ((s.data.drop 5).take 4).all Char.isDigit = true ∧
        (s.data.drop 9).all (fun c => c.isUpper || c.isLower) = true := by
  have hl : classTest letterClass = (fun c => c.isUpper || c.isLower) := funext classTest_letter
  have hd : classTest digitClass = Char.isDigit := funext classTest_digit
  rw [panValid, regexTest, matchSeq_three, hl, hd]
  rfl

theorem isUpper_not_isLower (c : Char) (h : c.isUpper = true) : c.isLower = false := by
  have e1 : (UInt32.toBitVec 90).toNat = 90 := rfl
  have e2 : (UInt32.toBitVec 97).toNat = 97 := rfl
  simp only [Char.isUpper, Char.isLower, Bool.and_eq_true, decide_eq_true_eq,
    Bool.and_eq_false_imp, ge_iff_le, UInt32.le_def, BitVec.le_def, decide_eq_false_iff_not,
    e1, e2] at *
  omega

theorem isDigit_not_isLower (c : Char) (h : c.isDigit = true) : c.isLower = false := by
  have e1 : (UInt32.toBitVec 57).toNat = 57 := rfl
  have e2 : (UInt32.toBitVec 97).toNat = 97 := rfl
  simp only [Char.isDigit, Char.isLower, Bool.and_eq_true, decide_eq_true_eq,
    Bool.and_eq_false_imp, ge_iff_le, UInt32.le_def, BitVec.le_def, decide_eq_false_iff_not,
    e1, e2] at *
  omega

/-! ## Lemmas on the OTP store -/

theorem storeGet_delete (store : OtpStore) (k k' : String) :
    storeGet (storeDelete store k) k' = if k' = k then none else storeGet store k' := by
  induction store with
  | nil => simp [storeGet, storeDelete]
  | cons p ps ih =>
    obtain ⟨a, e⟩ := p
    simp only [storeGet, storeDelete] at ih ⊢
    by_cases hp : a = k
    · subst hp
      by_cases hk : k' = a
      · subst hk
        simpa [List.filter_cons] using ih
      · have h1 : (k' == a) = false := by simpa using hk
        simpa [List.filter_cons, List.lookup_cons, h1] using ih
    · have h0 : (a != k) = true := by simpa using hp
      by_cases hk : k' = a
      · subst hk
        simp [List.filter_cons, h0, List.lookup_cons, hp]
      · have h1 : (k' == a) = false := by simpa using hk
        simpa [List.filter_cons, h0, List.lookup_cons, h1] using ih

theorem storeGet_set (store : OtpStore) (k k' : String) (e : OtpEntry) :
    storeGet (storeSet store k e) k' = if k' = k then some e else storeGet store k' := by
  have h := storeGet_delete store k k'
  simp only [storeGet, storeSet, List.lookup_cons] at h ⊢
  by_cases hk : k' = k
  · subst hk; simp
  · have h1 : (k' == k) = false := by simpa using hk
    simpa [h1, hk] using h

/-! ## OTP verification -/

theorem validateAadhaar_ne_empty (x : String) (h : validateAadhaar x = true) : x ≠ "" := by
  rintro rfl
  exact absurd h (by decide)

/-- C1: for a subject that passes the Aadhaar check and a non-empty submitted code, `verifyOtp`
answers not-found when the store has no entry, else expired when `now > expiry` (JavaScript
comparison, a cleared expiry counting as 0), else invalid when the code differs from the stored
one, else verified; so it succeeds exactly when an entry exists, `now <= expiry` and the codes
are equal. -/
theorem verifyOtp_answers_in_order (store : OtpStore) (now : Int) (body : Body)
    (x code : String) (hx : field body "aadhaarNumber" = some x)
    (hv : validateAadhaar x = true) (hc : field body "otp" = some code) (hne : code ≠ "") :
    (verifyOtp store now body).2 =
      (match storeGet store x with
       | none => ⟨400, .error "No OTP generated for this Aadhaar number"⟩
       | some e =>
         if now > e.expiry.getD 0 then ⟨400, .error "OTP expired"⟩
         else if e.otp ≠ some code then ⟨400, .error "Invalid OTP"⟩
         else ⟨200, .message "OTP verified successfully"⟩) ∧
    ((verifyOtp store now body).2 = ⟨200, .message "OTP verified successfully"⟩ ↔
      ∃ e, storeGet store x = some e ∧ now ≤ e.expiry.getD 0 ∧ e.otp = some code) := by
  have hxe := validateAadhaar_ne_empty x hv
  simp only [verifyOtp, hx, hc, hv, hxe, hne, jsGreater]
  cases hs : storeGet store x with
  | none => simp
  | some e =>
    by_cases h1 : now > e.expiry.getD 0
    · simp [h1]
    · by_cases h2 : e.otp = some code
      · simp [h1, h2, not_lt.mp h1]
      · simp [h1, h2]

theorem verifyOtp_answers_in_order_witness :
    (verifyOtp [("123456789012", ⟨some "123456", some 5000, false⟩)] 4000
        [("aadhaarNumber", "123456789012"), ("otp", "123456")]).2
      = ⟨200, .message "OTP verified successfully"⟩ := by
  have h := (verifyOtp_answers_in_order
    [("123456789012", ⟨some "123456", some 5000, false⟩)] 4000
    [("aadhaarNumber", "123456789012"), ("otp", "123456")] "123456789012" "123456"
    (by decide) (by decide) (by decide) (by decide)).2
  exact h.mpr ⟨⟨some "123456", some 5000, false⟩, by decide, by decide, by decide⟩

theorem generateOtp_valid (store : OtpStore) (now : Int) (entropy : Nat) (body : Body)
    (x : String) (hx : field body "aadhaarNumber" = some x) (hv : validateAadhaar x = true) :
    generateOtp store now entropy body =
      (storeSet store x ⟨some (drawOtp entropy), some (now + 300000), false⟩,
        ⟨200, .message "OTP sent successfully"⟩) := by
  have hxe := validateAadhaar_ne_empty x hv
  simp [generateOtp, hx, hv, hxe]

theorem verifyOtp_found (store : OtpStore) (now : Int) (body : Body) (x code : String)
    (e : OtpEntry) (hx : field body "aadhaarNumber" = some x) (hv : validateAadhaar x = true)
    (hc : field body "otp" = some code) (hne : code ≠ "") (he : storeGet store x = some e) :
    verifyOtp store now body =
      if now > e.expiry.getD 0 then (storeDelete store x, ⟨400, .error "OTP expired"⟩)
      else if e.otp = some code then
        (storeSet store x ⟨none, none, true⟩, ⟨200, .message "OTP verified successfully"⟩)
      else (store, ⟨400, .error "Invalid OTP"⟩) := by
  have hxe := validateAadhaar_ne_empty x hv
  simp only [verifyOtp, hx, hc, hv, hxe, hne, jsGreater, he]
  simp

theorem verifyOtp_absent (store : OtpStore) (now : Int) (body : Body) (x code : String)
    (hx : field body "aadhaarNumber" = some x) (hv : validateAadhaar x = true)
    (hc : field body "otp" = some code) (hne : code ≠ "") (he : storeGet store x = none) :
    verifyOtp store now body =
      (store, ⟨400, .error "No OTP generated for this Aadhaar number"⟩) := by
  have hxe := validateAadhaar_ne_empty x hv
  simp only [verifyOtp, hx, hc, hv, hxe, hne, he]
  simp

theorem verifyOtp_cleared_entry (store : OtpStore) (now : Int) (body : Body) (x code : String)
    (hx : field body "aadhaarNumber" = some x) (hv : validateAadhaar x = true)
    (hc : field body "otp" = some code) (hne : code ≠ "")
    (hg : storeGet store x = some ⟨none, none, true⟩) :
    verifyOtp store now body =
      if now > 0 then (storeDelete store x, ⟨400, .error "OTP expired"⟩)
      else (store, ⟨400, .error "Invalid OTP"⟩) := by
  rw [verifyOtp_found store now body x code _ hx hv hc hne hg]
  by_cases hn : now > 0 <;> simp [hn]

/-- C2: confirming a live challenge with the correct code before expiry marks it verified and
clears its stored code; a second `verifyOtp` for the same subject with the same code then
fails: it is answered with status 400 and one of the errors of a missing or stale challenge
(not found, expired, invalid), never with the success response. -/
theorem verifyOtp_replay_rejected (store : OtpStore) (now now2 t : Int) (body : Body)
    (x code : String) (v : Bool) (hx : field body "aadhaarNumber" = some x)
    (hv : validateAadhaar x = true) (hc : field body "otp" = some code) (hne : code ≠ "")
    (he : storeGet store x = some ⟨some code, some t, v⟩) (hlive : now ≤ t) :
    (verifyOtp store now body).2 = ⟨200, .message "OTP verified successfully"⟩ ∧
    storeGet (verifyOtp store now body).1 x = some ⟨none, none, true⟩ ∧
    (verifyOtp (verifyOtp store now body).1 now2 body).2.status = 400 ∧
    ((verifyOtp (verifyOtp store now body).1 now2 body).2.body
        = .error "No OTP generated for this Aadhaar number" ∨
      (verifyOtp (verifyOtp store now body).1 now2 body).2.body = .error "OTP expired" ∨
      (verifyOtp (verifyOtp store now body).1 now2 body).2.body = .error "Invalid OTP") ∧
    (verifyOtp (verifyOtp store now body).1 now2 body).2 ≠
      ⟨200, .message "OTP verified successfully"⟩ := by
  have h1 : verifyOtp store now body =
      (storeSet store x ⟨none, none, true⟩, ⟨200, .message "OTP verified successfully"⟩) := by
    rw [verifyOtp_found store now body x code _ hx hv hc hne he]
    simp [not_lt.mpr hlive]
  have hg : storeGet (storeSet store x ⟨none, none, true⟩) x = some ⟨none, none, true⟩ := by
    simp [storeGet_set]
  have h2 := verifyOtp_cleared_entry (storeSet store x ⟨none, none, true⟩) now2 body x code
    hx hv hc hne hg
  rw [h1]
  refine ⟨rfl, hg, ?_, ?_, ?_⟩
  · by_cases hn : now2 > 0 <;> simp [h2, hn]
  · by_cases hn : now2 > 0 <;> simp [h2, hn]
  · by_cases hn : now2 > 0 <;> simp [h2, hn]

theorem verifyOtp_replay_rejected_witness :
    storeGet [("123456789012", ⟨some "123456", some 5000, false⟩)] "123456789012"
        = some ⟨some "123456", some 5000, false⟩ ∧
      (verifyOtp (verifyOtp [("123456789012", ⟨some "123456", some 5000, false⟩)] 4000
          [("aadhaarNumber", "123456789012"), ("otp", "123456")]).1 4500
          [("aadhaarNumber", "123456789012"), ("otp", "123456")]).2
        ≠ ⟨200, .message "OTP verified successfully"⟩ :=
  ⟨by decide, (verifyOtp_replay_rejected
    [("123456789012", ⟨some "123456", some 5000, false⟩)] 4000 4500 5000
    [("aadhaarNumber", "123456789012"), ("otp", "123456")] "123456789012" "123456" false
    (by decide) (by decide) (by decide) (by decide) (by decide) (by decide)).2.2.2.2⟩

/-- C3: a challenge issued by `generateOtp` at time `t` expires at `t + 300000`: while the
entry of the subject is as issued, any later `verifyOtp` with a non-empty code answers
`OTP expired` and removes the entry, so the next `verifyOtp` answers not-found; up to and
including `t + 300000` it does not answer `OTP expired`. -/
theorem verifyOtp_after_window_expired (store later : OtpStore) (t tv tn : Int)
    (entropy : Nat) (gbody vbody vbody2 : Body) (x code code2 : String)
    (hg : field gbody "aadhaarNumber" = some x) (hv : validateAadhaar x = true)
    (hl : storeGet later x = storeGet (generateOtp store t entropy gbody).1 x)
    (hx : field vbody "aadhaarNumber" = some x) (hc : field vbody "otp" = some code)
    (hne : code ≠ "") (hx2 : field vbody2 "aadhaarNumber" = some x)
    (hc2 : field vbody2 "otp" = some code2) (hne2 : code2 ≠ "") :
    storeGet (generateOtp store t entropy gbody).1 x
      = some ⟨some (drawOtp entropy), some (t + 5 * 60 * 1000), false⟩ ∧
    (tv > t + 300000 →
      verifyOtp later tv vbody = (storeDelete later x, ⟨400, .error "OTP expired"⟩) ∧
      storeGet (verifyOtp later tv vbody).1 x = none ∧
      (verifyOtp (verifyOtp later tv vbody).1 tn vbody2).2
        = ⟨400, .error "No OTP generated for this Aadhaar number"⟩) ∧
    (tv ≤ t + 300000 →
      (verifyOtp later tv vbody).2 ≠ ⟨400, .error "OTP expired"⟩) := by
  rw [generateOtp_valid store t entropy gbody x hg hv] at hl ⊢
  have hs : storeGet (storeSet store x ⟨some (drawOtp entropy), some (t + 300000), false⟩) x
      = some ⟨some (drawOtp entropy), some (t + 300000), false⟩ := by
    simp [storeGet_set]
  rw [hs] at hl
  have h1 := verifyOtp_found later tv vbody x code _ hx hv hc hne hl
  refine ⟨by simpa using hs, ?_, ?_⟩
  · intro hlate
    have h2 : verifyOtp later tv vbody
        = (storeDelete later x, ⟨400, .error "OTP expired"⟩) := by
      rw [h1]; simp [hlate]
    have h3 : storeGet (storeDelete later x) x = none := by
      simp [storeGet_delete]
    rw [h2]
    refine ⟨rfl, h3, ?_⟩
    rw [verifyOtp_absent _ tn vbody2 x code2 hx2 hv hc2 hne2 h3]
  · intro hearly
    rw [h1]
    have : ¬ tv > t + 300000 := not_lt.mpr hearly
    by_cases hm : some (drawOtp entropy) = some code <;> simp [this, hm]

theorem verifyOtp_after_window_expired_witness :
    (verifyOtp (generateOtp [] 1000 7 [("aadhaarNumber", "123456789012")]).1 301001
        [("aadhaarNumber", "123456789012"), ("otp", "100007")]).2
      = ⟨400, .error "OTP expired"⟩ := by
  have h := (verifyOtp_after_window_expired []
    (generateOtp [] 1000 7 [("aadhaarNumber", "123456789012")]).1 1000 301001 301002 7
    [("aadhaarNumber", "123456789012")]
    [("aadhaarNumber", "123456789012"), ("otp", "100007")]
    [("aadhaarNumber", "123456789012"), ("otp", "100007")]
    "123456789012" "100007" "100007"
    (by decide) (by decide) rfl (by decide) (by decide) (by decide) (by decide) (by decide)
    (by decide)).2.1
  rw [(h (by decide)).1]

theorem randomInt_otp_range (entropy : Nat) :
    100000 ≤ randomInt 100000 999999 entropy ∧ randomInt 100000 999999 entropy ≤ 999998 := by
  unfold randomInt
  omega

theorem randomInt_otp_reaches (n : Nat) (h1 : 100000 ≤ n) (h2 : n ≤ 999998) :
    randomInt 100000 999999 (n - 100000) = n := by
  unfold randomInt
  omega

theorem toDigits_six (n : Nat) (h1 : 100000 ≤ n) (h2 : n ≤ 999999) :
    Nat.toDigits 10 n =
      [Nat.digitChar (n / 100000), Nat.digitChar (n / 10000 % 10), Nat.digitChar (n / 1000 % 10),
        Nat.digitChar (n / 100 % 10), Nat.digitChar (n / 10 % 10), Nat.digitChar (n % 10)] := by
  have hf : n + 1 = (n - 5) + 1 + 1 + 1 + 1 + 1 + 1 := by omega
  have a1 : n / 10 ≠ 0 := by omega
  have a2 : n / 10 / 10 ≠ 0 := by omega
  have a3 : n / 10 / 10 / 10 ≠ 0 := by omega
  have a4 : n / 10 / 10 / 10 / 10 ≠ 0 := by omega
  have a5 : n / 10 / 10 / 10 / 10 / 10 ≠ 0 := by omega
  have a6 : n / 10 / 10 / 10 / 10 / 10 / 10 = 0 := by omega
  have c2 : n / 10 / 10 % 10 = n / 100 % 10 := by omega
  have c3 : n / 10 / 10 / 10 % 10 = n / 1000 % 10 := by omega
  have c4 : n / 10 / 10 / 10 / 10 % 10 = n / 10000 % 10 := by omega
  have c5 : n / 10 / 10 / 10 / 10 / 10 % 10 = n / 100000 := by omega
  rw [Nat.toDigits, hf]
  simp only [Nat.toDigitsCore, a1, a2, a3, a4, a5, a6, if_false, if_true]
  rw [c2, c3, c4, c5]

theorem toString_six (n : Nat) (h1 : 100000 ≤ n) (h2 : n ≤ 999999) :
    toString n = String.mk
      [Nat.digitChar (n / 100000), Nat.digitChar (n / 10000 % 10), Nat.digitChar (n / 1000 % 10),
        Nat.digitChar (n / 100 % 10), Nat.digitChar (n / 10 % 10), Nat.digitChar (n % 10)] := by
  show Nat.repr n = _
  rw [Nat.repr, toDigits_six n h1 h2]
  rfl

theorem digitChar_isDigit (d : Nat) (h : d < 10) : (Nat.digitChar d).isDigit = true := by
  interval_cases d <;> decide

theorem digitChar_eq_nine (d : Nat) (h : d < 10) (h9 : Nat.digitChar d = '9') : d = 9 := by
  interval_cases d <;> first | rfl | exact absurd h9 (by decide)

theorem digitChar_ne_zero (d : Nat) (h0 : 0 < d) (h : d < 10) : Nat.digitChar d ≠ '0' := by
  interval_cases d <;> decide

theorem drawOtp_digits (entropy : Nat) :
    ∃ n, 100000 ≤ n ∧ n ≤ 999998 ∧ drawOtp entropy = String.mk
      [Nat.digitChar (n / 100000), Nat.digitChar (n / 10000 % 10), Nat.digitChar (n / 1000 % 10),
        Nat.digitChar (n / 100 % 10), Nat.digitChar (n / 10 % 10), Nat.digitChar (n % 10)] := by
  obtain ⟨h1, h2⟩ := randomInt_otp_range entropy
  exact ⟨_, h1, h2, toString_six _ h1 (by omega)⟩

theorem drawOtp_ne_empty (entropy : Nat) : drawOtp entropy ≠ "" := by
  obtain ⟨n, _, _, h⟩ := drawOtp_digits entropy
  rw [h]
  intro hc
  have := congrArg String.data hc
  simp at this

/-- C4 (as amended): after two successive `generateOtp` calls for the same subject, storing
code `c1` and then `c2`, a `verifyOtp` with `c1` made before the second expiry answers
`Invalid OTP` when `c1` differs from `c2`, and verifies successfully when the second draw
repeated the first code. -/
theorem reissue_invalidates_distinct_code (store : OtpStore) (t1 t2 now : Int)
    (entropy1 entropy2 : Nat) (gbody1 gbody2 vbody : Body) (x : String)
    (hg1 : field gbody1 "aadhaarNumber" = some x) (hg2 : field gbody2 "aadhaarNumber" = some x)
    (hv : validateAadhaar x = true) (hx : field vbody "aadhaarNumber" = some x)
    (hc : field vbody "otp" = some (drawOtp entropy1)) (hnow : now ≤ t2 + 300000) :
    (verifyOtp (generateOtp (generateOtp store t1 entropy1 gbody1).1 t2 entropy2 gbody2).1
        now vbody).2 =
      (if drawOtp entropy1 = drawOtp entropy2 then ⟨200, .message "OTP verified successfully"⟩
       else ⟨400, .error "Invalid OTP"⟩) := by
  rw [generateOtp_valid store t1 entropy1 gbody1 x hg1 hv,
    generateOtp_valid _ t2 entropy2 gbody2 x hg2 hv]
  have hs : storeGet (storeSet (storeSet store x
      ⟨some (drawOtp entropy1), some (t1 + 300000), false⟩) x
      ⟨some (drawOtp entropy2), some (t2 + 300000), false⟩) x
      = some ⟨some (drawOtp entropy2), some (t2 + 300000), false⟩ := by
    simp [storeGet_set]
  rw [verifyOtp_found _ now vbody x (drawOtp entropy1) _ hx hv hc (drawOtp_ne_empty entropy1) hs]
  have : ¬ now > t2 + 300000 := not_lt.mpr hnow
  by_cases hm : drawOtp entropy1 = drawOtp entropy2
  · simp [this, hm]
  · have hm2 : ¬ drawOtp entropy2 = drawOtp entropy1 := fun h => hm h.symm
    simp [this, hm, hm2]

theorem reissue_invalidates_distinct_code_witness :
    (verifyOtp (generateOtp (generateOtp [] 1000 7 [("aadhaarNumber", "123456789012")]).1
        2000 8 [("aadhaarNumber", "123456789012")]).1
        3000 [("aadhaarNumber", "123456789012"), ("otp", "100007")]).2
      = ⟨400, .error "Invalid OTP"⟩ := by
  have h := reissue_invalidates_distinct_code [] 1000 2000 3000 7 8
    [("aadhaarNumber", "123456789012")] [("aadhaarNumber", "123456789012")]
    [("aadhaarNumber", "123456789012"), ("otp", "100007")] "123456789012"
    (by decide) (by decide) (by decide) (by decide) (by decide) (by decide)
  rw [h]
  decide

/-- C4 counterexample: when the second `generateOtp` draws the same code as the first, the
first code still verifies after the second issue; the answer is not `Invalid OTP`. -/
theorem reissue_same_code_still_verifies :
    (generateOtp [] 1000 7 [("aadhaarNumber", "123456789012")]).2
      = ⟨200, .message "OTP sent successfully"⟩ ∧
    storeGet (generateOtp [] 1000 7 [("aadhaarNumber", "123456789012")]).1 "123456789012"
      = some ⟨some "100007", some 301000, false⟩ ∧
    storeGet (generateOtp (generateOtp [] 1000 7 [("aadhaarNumber", "123456789012")]).1
        2000 7 [("aadhaarNumber", "123456789012")]).1 "123456789012"
      = some ⟨some "100007", some 302000, false⟩ ∧
    (verifyOtp (generateOtp (generateOtp [] 1000 7 [("aadhaarNumber", "123456789012")]).1
        2000 7 [("aadhaarNumber", "123456789012")]).1
        3000 [("aadhaarNumber", "123456789012"), ("otp", "100007")]).2
      = ⟨200, .message "OTP verified successfully"⟩ := by
  decide

/-- C9: every code `generateOtp` stores is the decimal string of an integer from 100000 to
999998: six digits, no leading zero, and never `999999`, because the upper bound of
`crypto.randomInt(100000, 999999)` is excluded. -/
theorem generateOtp_never_stores_999999 (store : OtpStore) (now : Int) (entropy : Nat)
    (body : Body) (x : String) (hx : field body "aadhaarNumber" = some x)
    (hv : validateAadhaar x = true) :
    ∃ n code, 100000 ≤ n ∧ n ≤ 999998 ∧ code = toString n ∧
      storeGet (generateOtp store now entropy body).1 x
        = some ⟨some code, some (now + 300000), false⟩ ∧
      code.length = 6 ∧ code.data.all Char.isDigit = true ∧ code.data.head? ≠ some '0' ∧
      code ≠ "999999" := by
  obtain ⟨h1, h2⟩ := randomInt_otp_range entropy
  refine ⟨randomInt 100000 999999 entropy, drawOtp entropy, h1, h2, rfl, ?_, ?_⟩
  · rw [generateOtp_valid store now entropy body x hx hv]
    simp [storeGet_set]
  · have hd : drawOtp entropy = _ := toString_six _ h1 (by omega)
    generalize randomInt 100000 999999 entropy = n at h1 h2 hd
    rw [hd]
    refine ⟨rfl, ?_, ?_, ?_⟩
    · simp only [List.all_cons, List.all_nil, Bool.and_true, Bool.and_eq_true]
      refine ⟨?_, ?_, ?_, ?_, ?_, ?_⟩ <;> apply digitChar_isDigit <;> omega
    · simp only [List.head?_cons, ne_eq, Option.some.injEq]
      exact digitChar_ne_zero _ (by omega) (by omega)
    · intro hc
      have hl : [Nat.digitChar (n / 100000), Nat.digitChar (n / 10000 % 10),
          Nat.digitChar (n / 1000 % 10), Nat.digitChar (n / 100 % 10),
          Nat.digitChar (n / 10 % 10), Nat.digitChar (n % 10)]
          = ['9', '9', '9', '9', '9', '9'] := congrArg String.data hc
      simp only [List.cons.injEq, and_true] at hl
      obtain ⟨e5, e4, e3, e2, e1, e0⟩ := hl
      have := digitChar_eq_nine _ (by omega) e5
      have := digitChar_eq_nine _ (by omega) e4
      have := digitChar_eq_nine _ (by omega) e3
      have := digitChar_eq_nine _ (by omega) e2
      have := digitChar_eq_nine _ (by omega) e1
      have := digitChar_eq_nine _ (by omega) e0
      omega

theorem generateOtp_never_stores_999999_witness :
    ∃ n code, 100000 ≤ n ∧ n ≤ 999998 ∧ code = toString n ∧
      storeGet (generateOtp [] 1000 899998 [("aadhaarNumber", "123456789012")]).1
          "123456789012"
        = some ⟨some code, some (1000 + 300000), false⟩ ∧
      code.length = 6 ∧ code.data.all Char.isDigit = true ∧ code.data.head? ≠ some '0' ∧
      code ≠ "999999" :=
  generateOtp_never_stores_999999 [] 1000 899998 [("aadhaarNumber", "123456789012")]
    "123456789012" (by decide) (by decide)

/-! ## Submission -/

theorem validatePan_ne_empty (p : String) (h : validatePan p = true) : p ≠ "" := by
  rintro rfl
  exact absurd h (by decide)

/-- C5: `submitForm` answers 400 `Invalid Aadhaar number` and issues no storage call when
`aadhaar` is missing or fails the Aadhaar check; otherwise 400 `Invalid PAN number format`
and no storage call when `pan` is missing or fails `validatePan`; otherwise it issues exactly
one `create` call carrying `aadhaar`, `pan` and the whole body as payload, answering 200 with
the created id when storage succeeds and 500 `Server error`, without the storage detail, when
storage throws. -/
theorem submitForm_decides (create : SubmissionData → Except String Nat) (body : Option Body) :
    ((field (body.getD []) "aadhaar" = none ∨
        ∃ a, field (body.getD []) "aadhaar" = some a ∧ validateAadhaar a = false) →
      submitForm create body = ⟨[], ⟨400, .error "Invalid Aadhaar number"⟩⟩) ∧
    (∀ a, field (body.getD []) "aadhaar" = some a → validateAadhaar a = true →
      (field (body.getD []) "pan" = none ∨
        ∃ p, field (body.getD []) "pan" = some p ∧ validatePan p = false) →
      submitForm create body = ⟨[], ⟨400, .error "Invalid PAN number format"⟩⟩) ∧
    (∀ a p, field (body.getD []) "aadhaar" = some a → validateAadhaar a = true →
      field (body.getD []) "pan" = some p → validatePan p = true →
      (submitForm create body).requested = [⟨a, p, body.getD []⟩] ∧
      (∀ id, create ⟨a, p, body.getD []⟩ = .ok id →
        (submitForm create body).response = ⟨200, .success id⟩) ∧
      (∀ detail, create ⟨a, p, body.getD []⟩ = .error detail →
        (submitForm create body).response = ⟨500, .error "Server error"⟩)) := by
  refine ⟨?_, ?_, ?_⟩
  · rintro (h | ⟨a, h, hf⟩)
    · simp [submitForm, h]
    · simp [submitForm, h, hf]
  · rintro a ha hv (h | ⟨p, h, hf⟩)
    · simp [submitForm, ha, hv, validateAadhaar_ne_empty a hv, h]
    · simp [submitForm, ha, hv, validateAadhaar_ne_empty a hv, h, hf]
  · intro a p ha hv hp hvp
    have e1 := validateAadhaar_ne_empty a hv
    have e2 := validatePan_ne_empty p hvp
    cases hcr : create ⟨a, p, body.getD []⟩ with
    | ok id => simp [submitForm, ha, hv, hp, hvp, e1, e2, hcr]
    | error detail => simp [submitForm, ha, hv, hp, hvp, e1, e2, hcr]

theorem submitForm_requested_valid (create : SubmissionData → Except String Nat)
    (body : Option Body) (d : SubmissionData) (hd : d ∈ (submitForm create body).requested) :
    validateAadhaar d.aadhaar = true ∧ validatePan d.pan = true ∧
      field d.payload "aadhaar" = some d.aadhaar ∧ field d.payload "pan" = some d.pan ∧
      d.payload = body.getD [] := by
  unfold submitForm at hd
  simp only at hd
  split at hd
  · simp at hd
  · rename_i a ha
    split at hd
    · simp at hd
    · rename_i hva
      split at hd
      · simp at hd
      · rename_i p hp
        split at hd
        · simp at hd
        · rename_i hvp
          simp only [Bool.or_eq_true, decide_eq_true_eq, Bool.not_eq_true', not_or,
            Bool.not_eq_false] at hva hvp
          split at hd <;>
          · simp only [List.mem_singleton] at hd
            subst hd
            exact ⟨hva.2, hvp.2, ha, hp, rfl⟩

theorem createdBy_valid (r : Request) (d : SubmissionData) (hd : d ∈ createdBy r) :
    validateAadhaar d.aadhaar = true ∧ validatePan d.pan = true ∧
      field d.payload "aadhaar" = some d.aadhaar ∧ field d.payload "pan" = some d.pan := by
  cases r with
  | generateOtp body now entropy => simp [createdBy] at hd
  | verifyOtp body now => simp [createdBy] at hd
  | submitForm body create =>
    simp only [createdBy, List.mem_filter] at hd
    have h := submitForm_requested_valid create body d hd.1
    exact ⟨h.1, h.2.1, h.2.2.1, h.2.2.2.1⟩

theorem handle_submissions (b : Backend) (r : Request) :
    (handle b r).1.submissions = b.submissions ++ createdBy r := by
  cases r <;> simp [handle, createdBy]

theorem serve_submissions_valid (reqs : List Request) (b : Backend)
    (hb : ∀ d ∈ b.submissions, validateAadhaar d.aadhaar = true ∧ validatePan d.pan = true ∧
      field d.payload "aadhaar" = some d.aadhaar ∧ field d.payload "pan" = some d.pan) :
    ∀ d ∈ (serve b reqs).submissions, validateAadhaar d.aadhaar = true ∧
      validatePan d.pan = true ∧
      field d.payload "aadhaar" = some d.aadhaar ∧ field d.payload "pan" = some d.pan := by
  induction reqs generalizing b with
  | nil => simpa [serve] using hb
  | cons r rest ih =>
    have : serve b (r :: rest) = serve (handle b r).1 rest := rfl
    rw [this]
    apply ih
    intro d hd
    rw [handle_submissions, List.mem_append] at hd
    rcases hd with hd | hd
    · exact hb d hd
    · exact createdBy_valid r d hd

/-- C6 (as amended): over every sequence of backend requests from an empty store, a
submission record is created only with a primary id that passes the Aadhaar check and a
secondary id that passes `validatePan`, both read from the stored payload; no verified OTP
challenge is required. -/
theorem submission_only_checks_formats (reqs : List Request) (d : SubmissionData)
    (hd : d ∈ (serve Backend.init reqs).submissions) :
    validateAadhaar d.aadhaar = true ∧ validatePan d.pan = true ∧
      field d.payload "aadhaar" = some d.aadhaar ∧ field d.payload "pan" = some d.pan :=
  serve_submissions_valid reqs Backend.init (by simp [Backend.init]) d hd

theorem submission_only_checks_formats_witness :
    validateAadhaar "123456789012" = true ∧ validatePan "ABCDE1234F" = true :=
  have h := submission_only_checks_formats
    [Request.submitForm (some [("aadhaar", "123456789012"), ("pan", "ABCDE1234F")])
      (fun _ => .ok 1)]
    ⟨"123456789012", "ABCDE1234F", [("aadhaar", "123456789012"), ("pan", "ABCDE1234F")]⟩
    (by decide)
  ⟨h.1, h.2.1⟩

/-- C6 counterexample: a single `submitForm` request on a fresh process, with no OTP ever
issued or verified, creates a submission record. -/
theorem submission_without_verified_otp :
    (serve Backend.init
      [Request.submitForm (some [("aadhaar", "123456789012"), ("pan", "ABCDE1234F")])
        (fun _ => .ok 1)]).submissions
      = [⟨"123456789012", "ABCDE1234F", [("aadhaar", "123456789012"), ("pan", "ABCDE1234F")]⟩] ∧
    verifiedDuring "123456789012" Backend.init [] = false ∧
    ¬ ∀ reqs, OtpGated reqs := by
  refine ⟨by decide, rfl, ?_⟩
  intro h
  have := h [Request.submitForm (some [("aadhaar", "123456789012"), ("pan", "ABCDE1234F")])
      (fun _ => .ok 1)] [] _ [] rfl
      ⟨"123456789012", "ABCDE1234F", [("aadhaar", "123456789012"), ("pan", "ABCDE1234F")]⟩
      (by decide)
  simp [verifiedDuring] at this

/-! ## Validators: the claims -/

/-- C7: `validatePan s` is true exactly when `s` has 10 characters, the first five upper-case
letters A-Z, the next four digits 0-9 and the last an upper-case letter A-Z. -/
theorem validatePan_iff_shape (s : String) :
    validatePan s = true ↔
      s.length = 10 ∧ (s.data.take 5).all Char.isUpper = true ∧
        ((s.data.drop 5).take 4).all Char.isDigit = true ∧
        (s.data.drop 9).all Char.isUpper = true :=
  validatePan_shape s

/-- C8: the frontend `aadhaarValid s` is true exactly when `s` consists of 12 ASCII digits. -/
theorem aadhaarValid_iff_twelve_digits (s : String) :
    aadhaarValid (some s) = true ↔ s.length = 12 ∧ s.data.all Char.isDigit = true :=
  aadhaarValid_shape s

/-- C10: the backend `validatePan` holds exactly when the frontend `panValid` holds and the
string has no lower-case letter; the string `abcde1234f` passes the frontend check and is
rejected by the backend. -/
theorem validatePan_iff_panValid_no_lower (s : String) :
    (validatePan s = true ↔
      panValid (some s) = true ∧ s.data.all (fun c => !c.isLower) = true) ∧
    panValid (some "abcde1234f") = true ∧ validatePan "abcde1234f" = false := by
  refine ⟨?_, by decide, by decide⟩
  rw [validatePan_shape, panValid_shape]
  constructor
  · rintro ⟨hl, h1, h2, h3⟩
    refine ⟨⟨hl, ?_, h2, ?_⟩, ?_⟩
    · rw [List.all_eq_true] at h1 ⊢
      intro c hc; simp [h1 c hc]
    · rw [List.all_eq_true] at h3 ⊢
      intro c hc; simp [h3 c hc]
    · have hsplit : s.data = s.data.take 5 ++ ((s.data.drop 5).take 4 ++ s.data.drop 9) := by
        rw [show s.data.drop 9 = (s.data.drop 5).drop 4 by simp, List.take_append_drop,
          List.take_append_drop]
      rw [hsplit, List.all_append, List.all_append]
      simp only [Bool.and_eq_true, List.all_eq_true] at *
      refine ⟨fun c hc => ?_, fun c hc => ?_, fun c hc => ?_⟩
      · simp [isUpper_not_isLower c (h1 c hc)]
      · simp [isDigit_not_isLower c (h2 c hc)]
      · simp [isUpper_not_isLower c (h3 c hc)]
  · rintro ⟨⟨hl, h1, h2, h3⟩, hno⟩
    have hsplit : s.data = s.data.take 5 ++ ((s.data.drop 5).take 4 ++ s.data.drop 9) := by
      rw [show s.data.drop 9 = (s.data.drop 5).drop 4 by simp, List.take_append_drop,
        List.take_append_drop]
    rw [hsplit, List.all_append, List.all_append] at hno
    simp only [Bool.and_eq_true, List.all_eq_true, Bool.or_eq_true, Bool.not_eq_true'] at *
    refine ⟨hl, fun c hc => ?_, h2, fun c hc => ?_⟩
    · rcases h1 c hc with h | h
      · exact h
      · rw [hno.1 c hc] at h; exact absurd h (by decide)
    · rcases h3 c hc with h | h
      · exact h
      · rw [hno.2.2 c hc] at h; exact absurd h (by decide)

/-! ## The form's step function -/

theorem otpFormatOk_shape (v : Option String) :
    otpFormatOk v = true ↔
      ∃ s, v = some s ∧ s.length = 6 ∧ s.data.all Char.isDigit = true := by
  have hd : classTest digitClass = Char.isDigit := funext classTest_digit
  cases v with
  | none => simp [otpFormatOk]
  | some s =>
    have hm : regexTest [⟨digitClass, 6⟩] s = true ↔
        s.length = 6 ∧ s.data.all Char.isDigit = true := by
      rw [regexTest, matchSeq_single, hd]
      rfl
    simp only [Option.some.injEq, exists_eq_left', ← hm]
    cases hr : regexTest [⟨digitClass, 6⟩] s with
    | false => simp [otpFormatOk, hr]
    | true =>
      have hne : s ≠ "" := by
        rintro rfl
        exact absurd hr (by decide)
      simp [otpFormatOk, hr, hne]

/-- C11: `handleSubmit` never skips a step: the step after is the step before or one more; it
moves from 1 only when `aadhaarValid` holds of the entered Aadhaar number and generate-otp
answered `OTP sent successfully`, from 2 only when the entered OTP is six digits and verify-otp
answered `OTP verified successfully`, from 3 only when `panValid` holds of the entered PAN and
submit answered success; when the format check of the step fails, as for the Aadhaar number
`123`, the step stays and no request is sent. -/
theorem handleSubmit_never_skips (view : FormView) (values : Body) (reply : Reply) :
    ((handleSubmit view values reply).1.currentStep = view.currentStep ∨
      (handleSubmit view values reply).1.currentStep = view.currentStep + 1) ∧
    ((handleSubmit view values reply).1.currentStep ≠ view.currentStep →
      (view.currentStep = 1 ∧ aadhaarValid (field values "aadhaarNumber") = true ∧
        ∃ d, reply = .resolved d ∧ d.message = some "OTP sent successfully") ∨
      (view.currentStep = 2 ∧
        (∃ s, field values "otp" = some s ∧ s.length = 6 ∧ s.data.all Char.isDigit = true) ∧
        ∃ d, reply = .resolved d ∧ d.message = some "OTP verified successfully") ∨
      (view.currentStep = 3 ∧ panValid (field values "pan") = true ∧
        ∃ d, reply = .resolved d ∧ d.success = true)) ∧
    ((view.currentStep = 1 ∧ aadhaarValid (field values "aadhaarNumber") = false ∨
      view.currentStep = 2 ∧
        ¬ (∃ s, field values "otp" = some s ∧ s.length = 6 ∧ s.data.all Char.isDigit = true) ∨
      view.currentStep = 3 ∧ panValid (field values "pan") = false) →
      (handleSubmit view values reply).1.currentStep = view.currentStep ∧
        (handleSubmit view values reply).2 = []) ∧
    ((handleSubmit { view with currentStep := 1 } [("aadhaarNumber", "123")] reply).1.currentStep
        = 1 ∧
      (handleSubmit { view with currentStep := 1 } [("aadhaarNumber", "123")] reply).2 = []) := by
  have hbad : aadhaarValid (field [("aadhaarNumber", "123")] "aadhaarNumber") = false := by
    decide
  have h4 : (handleSubmit { view with currentStep := 1 } [("aadhaarNumber", "123")]
        reply).1.currentStep = 1 ∧
      (handleSubmit { view with currentStep := 1 } [("aadhaarNumber", "123")] reply).2 = [] := by
    simp [handleSubmit, hbad]
  rw [← otpFormatOk_shape]
  refine ⟨?_, ?_, ?_, h4⟩ <;> clear h4 hbad
  all_goals
    obtain ⟨step, msg, errs, av, so, ld⟩ := view
    simp only
    by_cases h1 : step = 1
    · subst h1
      by_cases hv : aadhaarValid (field values "aadhaarNumber") = true
      · cases reply with
        | resolved d =>
          by_cases hm : d.message = some "OTP sent successfully" <;>
            simp [handleSubmit, hv, hm]
        | rejected e => simp [handleSubmit, hv]
      · simp [handleSubmit, hv]
    · by_cases h2 : step = 2
      · subst h2
        by_cases hv : otpFormatOk (field values "otp") = true
        · cases reply with
          | resolved d =>
            by_cases hm : d.message = some "OTP verified successfully" <;>
              simp [handleSubmit, hv, hm]
          | rejected e => simp [handleSubmit, hv]
        · simp [handleSubmit, hv]
      · by_cases h3 : step = 3
        · subst h3
          by_cases hv : panValid (field values "pan") = true
          · cases reply with
            | resolved d =>
              by_cases hm : d.success = true <;> simp [handleSubmit, hv, hm]
            | rejected e => simp [handleSubmit, hv]
          · simp [handleSubmit, hv]
        · simp [handleSubmit, h1, h2, h3]

/-! ## The test requests of backend.test.js -/

theorem appMatch_never_getSchema (method : Method) (path : List String) :
    appMatch method path ≠ some .getSchema := by
  have hr : ∀ rest, routerMatch method rest ≠ some .getSchema := by
    intro rest
    unfold routerMatch
    split <;> simp
  unfold appMatch
  split
  · split
    · exact hr _
    · simp
  · simp

/-- C12: a submit body that carries the identifiers under `aadhaarNumber` and `panNumber` is
answered 400 `Invalid Aadhaar number` whatever the two values are, because `submitForm` reads
`aadhaar` and `pan`; for the well-formed pair of the test the status is neither 200 nor 500.
The path `/submit` of the test matches no route: the router is mounted under `/api`. -/
theorem submitForm_rejects_test_keys (create : SubmissionData → Except String Nat)
    (a p : String) :
    submitForm create (some [("aadhaarNumber", a), ("panNumber", p)])
      = ⟨[], ⟨400, .error "Invalid Aadhaar number"⟩⟩ ∧
    validateAadhaar "123456789012" = true ∧ validatePan "ABCDE1234F" = true ∧
    (submitForm create
      (some [("aadhaarNumber", "123456789012"), ("panNumber", "ABCDE1234F")])).response.status
        = 400 ∧
    appMatch .post ["submit"] = none ∧
    appMatch .post ["api", "submit"] = some .submitForm := by
  have h : ∀ a p, submitForm create (some [("aadhaarNumber", a), ("panNumber", p)])
      = ⟨[], ⟨400, .error "Invalid Aadhaar number"⟩⟩ := by
    intro a p
    have hf : field [("aadhaarNumber", a), ("panNumber", p)] "aadhaar" = none := by
      simp [field, List.lookup]
    simp [submitForm, hf]
  refine ⟨h a p, by decide, by decide, ?_, by decide, by decide⟩
  rw [h]

/-- C13: `getSchema` answers every request with status 200 and the body `{}`, an object and
not an array; no route of the app reaches `getSchema`, and `GET /schema` matches no route. -/
theorem getSchema_body_not_array (req : Option Body) (method : Method) (path : List String) :
    (getSchema req).status = 200 ∧
    (getSchema req).body.toJson.isArray = false ∧
    appMatch method path ≠ some .getSchema ∧
    appMatch .get ["schema"] = none :=
  ⟨rfl, rfl, appMatch_never_getSchema method path, by decide⟩

/-! ## Failed confirmations leave the store alone -/

theorem verifyOtp_store_cases (store : OtpStore) (now : Int) (body : Body) :
    (verifyOtp store now body).1 = store ∨
      (verifyOtp store now body).2 = ⟨400, .error "OTP expired"⟩ ∨
      (verifyOtp store now body).2 = ⟨200, .message "OTP verified successfully"⟩ := by
  unfold verifyOtp
  repeat' split
  all_goals simp

theorem verifyEach_invalid_keeps (attempts : List (Int × Body)) (store : OtpStore)
    (h : ∀ r ∈ (verifyEach store attempts).2, r = ⟨400, .error "Invalid OTP"⟩) :
    (verifyEach store attempts).1 = store := by
  induction attempts generalizing store with
  | nil => rfl
  | cons a rest ih =>
    obtain ⟨now, body⟩ := a
    simp only [verifyEach, List.mem_cons, forall_eq_or_imp] at h ⊢
    have hkeep : (verifyOtp store now body).1 = store := by
      rcases verifyOtp_store_cases store now body with hs | hs | hs
      · exact hs
      · rw [hs] at h; exact absurd h.1 (by decide)
      · rw [hs] at h; exact absurd h.1 (by decide)
    rw [hkeep] at h ⊢
    exact ih store h.2

/-- C14: when `verifyOtp` answers `Invalid Aadhaar number`, `OTP is required`,
`No OTP generated for this Aadhaar number` or `Invalid OTP`, the store is left exactly as it
was; so after any number of requests answered `Invalid OTP` the store is unchanged and a
`verifyOtp` with the stored code at a time not after the expiry still succeeds. -/
theorem verifyOtp_failure_atomic (store : OtpStore) (now tv t : Int) (body vbody : Body)
    (attempts : List (Int × Body)) (x code : String) (v : Bool) :
    (((verifyOtp store now body).2 = ⟨400, .error "Invalid Aadhaar number"⟩ ∨
        (verifyOtp store now body).2 = ⟨400, .error "OTP is required"⟩ ∨
        (verifyOtp store now body).2
          = ⟨400, .error "No OTP generated for this Aadhaar number"⟩ ∨
        (verifyOtp store now body).2 = ⟨400, .error "Invalid OTP"⟩) →
      (verifyOtp store now body).1 = store) ∧
    ((∀ r ∈ (verifyEach store attempts).2, r = ⟨400, .error "Invalid OTP"⟩) →
      (verifyEach store attempts).1 = store ∧
      (storeGet store x = some ⟨some code, some t, v⟩ → validateAadhaar x = true →
        field vbody "aadhaarNumber" = some x → field vbody "otp" = some code → code ≠ "" →
        tv ≤ t →
        (verifyOtp (verifyEach store attempts).1 tv vbody).2
          = ⟨200, .message "OTP verified successfully"⟩)) := by
  constructor
  · intro h
    rcases verifyOtp_store_cases store now body with hs | hs | hs
    · exact hs
    · rw [hs] at h; exact absurd h (by decide)
    · rw [hs] at h; exact absurd h (by decide)
  · intro hall
    have hk := verifyEach_invalid_keeps attempts store hall
    refine ⟨hk, ?_⟩
    intro he hv hx hc hne hlive
    rw [hk, verifyOtp_found store tv vbody x code _ hx hv hc hne he]
    simp [not_lt.mpr hlive]

theorem verifyOtp_failure_atomic_witness :
    (verifyEach [("123456789012", ⟨some "123456", some 5000, false⟩)]
        [(1000, [("aadhaarNumber", "123456789012"), ("otp", "111111")]),
          (2000, [("aadhaarNumber", "123456789012"), ("otp", "222222")])]).2
      = [⟨400, .error "Invalid OTP"⟩, ⟨400, .error "Invalid OTP"⟩] ∧
    (verifyOtp (verifyEach [("123456789012", ⟨some "123456", some 5000, false⟩)]
        [(1000, [("aadhaarNumber", "123456789012"), ("otp", "111111")]),
          (2000, [("aadhaarNumber", "123456789012"), ("otp", "222222")])]).1 5000
        [("aadhaarNumber", "123456789012"), ("otp", "123456")]).2
      = ⟨200, .message "OTP verified successfully"⟩ := by
  refine ⟨by decide, ?_⟩
  exact ((verifyOtp_failure_atomic [("123456789012", ⟨some "123456", some 5000, false⟩)]
    0 5000 5000 [] [("aadhaarNumber", "123456789012"), ("otp", "123456")]
    [(1000, [("aadhaarNumber", "123456789012"), ("otp", "111111")]),
      (2000, [("aadhaarNumber", "123456789012"), ("otp", "222222")])]
    "123456789012" "123456" false).2 (by decide)).2
    (by decide) (by decide) (by decide) (by decide) (by decide) (by decide)

end Udyam
